import Mathlib

/-
Verification of the real-time messaging and recruitment-negotiation subsystem
of the lokreach backend (chat routes, chat/message models, socket presence
registry).

The JavaScript source is shallowly embedded as executable Lean definitions:
  * Mongo documents become structures over Nat identifiers and Nat timestamps
    (one logical timestamp per request; the original calls new Date()).
  * Route handlers become pure functions from a database snapshot (DB) and the
    request parameters to an outcome record holding the HTTP-level result, the
    updated database, and the list of socket events the handler emits.
  * findOne / find with a filter becomes List.find? / List.filter with the same
    predicate; findOneAndUpdate updates the first matching document;
    updateMany maps the update over all matching documents; $addToSet appends
    the element when an identical element is not already present, which is
    MongoDB's whole-document set semantics.
  * Mongoose schema validation that runs at save time (content maxlength 2000
    after trimming) is modelled as an explicit check at the point of the save;
    a failing save surfaces as the generic serverError (HTTP 500) branch, as in
    the original catch blocks.
  * The query .sort(createdAt: -1) over a chat's messages is modelled as the
    reversal of the chat's append-only message list, whose order is the
    creation order (creation timestamps are monotone per conversation, ties
    broken by insertion sequence).
-/

namespace Lokreach

/-! ### Enumerations of the Mongoose schemas -/

inductive Role
  | creator
  | brand
  | admin
deriving DecidableEq

inductive UserStanding
  | pending
  | approved
  | rejected
deriving DecidableEq

inductive ChatStatus
  | active
  | archived
  | blocked
deriving DecidableEq

inductive RecruitmentStatus
  | discussing
  | offer_sent
  | accepted
  | declined
  | completed
deriving DecidableEq

inductive MessageType
  | text
  | offer
  | system
deriving DecidableEq

inductive MsgDeliveryStatus
  | sent
  | delivered
  | read
deriving DecidableEq

inductive SystemMessageType
  | chat_started
  | offer_sent
  | offer_accepted
  | offer_declined
deriving DecidableEq

/-! ### Documents -/

/-- User document (models/User.js): only the fields the chat subsystem reads. -/
structure UserDoc where
  id : Nat
  role : Role
  standing : UserStanding
  brandName : String
deriving DecidableEq

/-- One entry of campaign.appliedCreators (models/Campaign.js). -/
structure Application where
  creator : Nat
  appliedAt : Nat
deriving DecidableEq

/-- Campaign document (models/Campaign.js): fields read by the chat routes. -/
structure CampaignDoc where
  id : Nat
  brand : Nat
  name : String
  appliedCreators : List Application
deriving DecidableEq

/-- offerDetails subdocument of a message (models/Message.js). -/
structure OfferDetails where
  amount : Int
  currency : String
  description : String
  deadline : Option Nat
deriving DecidableEq

/-- One element of a message's readBy array (models/Message.js). -/
structure ReadReceipt where
  user : Nat
  readAt : Nat
deriving DecidableEq

/-- Message document (models/Message.js). -/
structure Message where
  id : Nat
  chat : Nat
  sender : Nat
  content : String
  messageType : MessageType
  offerDetails : Option OfferDetails
  deliveryStatus : MsgDeliveryStatus
  readBy : List ReadReceipt
  systemMessageType : Option SystemMessageType
  createdAt : Nat
deriving DecidableEq

/-- Chat document (models/Chat.js). -/
structure Chat where
  id : Nat
  participants : List Nat
  campaign : Nat
  initiatedBy : Nat
  lastMessage : Option Nat
  lastActivity : Nat
  chatStatus : ChatStatus
  recruitmentStatus : RecruitmentStatus
deriving DecidableEq

/-- The persistent store as seen by the chat routes.  messages is append-only
and therefore listed in creation order.  nextId models the allocation of a
fresh ObjectId each time a document is constructed. -/
structure DB where
  chats : List Chat
  messages : List Message
  campaigns : List CampaignDoc
  users : List UserDoc
  nextId : Nat
deriving DecidableEq

/-! ### Socket channels and events (socket/socketHandler.js naming) -/

/-- Typed form of the string-keyed socket.io rooms: user_<id> and chat_<id>. -/
inductive Channel
  | user (id : Nat)
  | chat (id : Nat)
deriving DecidableEq

/-- One io.to(channel).emit(name, payload) call; payload reduced to the id of
the document it carries. -/
structure SocketEvent where
  channel : Channel
  name : String
  payload : Nat
deriving DecidableEq

/-- JavaScript String.prototype.trim (and the Mongoose schema trim): strip
leading and trailing whitespace.  Implemented over the character list by
structural recursion so that concrete instances reduce inside the kernel. -/
def strTrim (s : String) : String :=
  ⟨((s.data.dropWhile Char.isWhitespace).reverse.dropWhile
      Char.isWhitespace).reverse⟩

/-! ### Shared lookups -/

/-- Chat.findOne with filter _id: chatId, participants: userId
(used by GET messages, PATCH read, PATCH read-all, PATCH status). -/
def findChatAsParticipant (db : DB) (userId chatId : Nat) : Option Chat :=
  db.chats.find? (fun c => decide (c.id = chatId ∧ userId ∈ c.participants))

/-- Chat.findOne with filter _id: chatId, participants: userId, status: active
(used by POST messages). -/
def findActiveChatAsParticipant (db : DB) (userId chatId : Nat) : Option Chat :=
  db.chats.find? (fun c =>
    decide (c.id = chatId ∧ userId ∈ c.participants ∧ c.chatStatus = ChatStatus.active))

/-! ### POST /api/chats/:chatId/messages (send a message) -/

inductive SendErr
  /-- 400 "Message content is required" -/
  | validationError
  /-- 404 "Chat not found or inactive" -/
  | chatNotFoundOrInactive
  /-- 500 "Server error" (a save rejected by schema validation lands in the
  catch block) -/
  | serverError
deriving DecidableEq

deriving instance DecidableEq for Except

structure SendOutcome where
  res : Except SendErr Message
  db : DB
  events : List SocketEvent
deriving DecidableEq

/-- The message document saved by POST /:chatId/messages: trimmed content,
deliveryStatus sent, offerDetails attached only when messageType is offer and
a payload was supplied (the spread
...(messageType === "offer" && offerDetails && ...)). -/
def newSentMessage (db : DB) (userId chatId : Nat) (content : String)
    (messageType : MessageType) (offerDetails : Option OfferDetails)
    (now : Nat) : Message :=
  { id := db.nextId, chat := chatId, sender := userId, content := (strTrim content),
    messageType := messageType,
    offerDetails :=
      if messageType = MessageType.offer ∧ offerDetails.isSome then offerDetails
      else none,
    deliveryStatus := MsgDeliveryStatus.sent, readBy := [],
    systemMessageType := none, createdAt := now }

/-- POST /:chatId/messages (routes/chat.js lines 272-336).  The new message is
saved; the chat's lastMessage and lastActivity are updated; a new_message
event is emitted to the personal room of every participant other than the
sender.  The schema maxlength 2000 check of Message.save is explicit; the
route itself only rejects empty content. -/
def sendMessage (db : DB) (userId chatId : Nat) (content : String)
    (messageType : MessageType) (offerDetails : Option OfferDetails)
    (now : Nat) : SendOutcome :=
  if (strTrim content) = "" then
    ⟨Except.error SendErr.validationError, db, []⟩
  else
    match findActiveChatAsParticipant db userId chatId with
    | none => ⟨Except.error SendErr.chatNotFoundOrInactive, db, []⟩
    | some chat =>
      if 2000 < (strTrim content).length then
        ⟨Except.error SendErr.serverError, db, []⟩
      else
        ⟨Except.ok (newSentMessage db userId chatId content messageType offerDetails now),
         { db with
           chats := db.chats.map (fun c =>
             if c.id = chat.id then
               { c with lastMessage := some db.nextId, lastActivity := now }
             else c)
           messages := db.messages ++
             [newSentMessage db userId chatId content messageType offerDetails now]
           nextId := db.nextId + 1 },
         (chat.participants.filter (fun p => decide (p ≠ userId))).map
           (fun p => ⟨Channel.user p, "new_message", db.nextId⟩)⟩

/-! ### PATCH read / read-all and the unread count -/

inductive ReadErr
  /-- 404 "Chat not found" -/
  | chatNotFound
  /-- 404 "Message not found" -/
  | messageNotFound
deriving DecidableEq

structure ReadOutcome where
  res : Except ReadErr Unit
  db : DB
deriving DecidableEq

/-- MongoDB $addToSet on the readBy array: the element is appended when an
identical (user, readAt) element is not already present; equality is on the
whole element, so the same reader with a different timestamp is a different
element. -/
def addToSetReceipt (l : List ReadReceipt) (r : ReadReceipt) : List ReadReceipt :=
  if r ∈ l then l else l ++ [r]

/-- Update of the first document matching p (Message.findOneAndUpdate). -/
def updateFirst (p : Message → Bool) (f : Message → Message) :
    List Message → List Message
  | [] => []
  | m :: ms => if p m then f m :: ms else m :: updateFirst p f ms

/-- The findOneAndUpdate filter of PATCH read: _id, chat, sender ≠ reader. -/
def markReadFilter (userId chatId messageId : Nat) (m : Message) : Bool :=
  decide (m.id = messageId ∧ m.chat = chatId ∧ m.sender ≠ userId)

/-- The update applied by both PATCH read and PATCH read-all:
status: "read" plus $addToSet readBy (user, readAt = now). -/
def readUpdate (userId now : Nat) (m : Message) : Message :=
  { m with deliveryStatus := MsgDeliveryStatus.read,
           readBy := addToSetReceipt m.readBy ⟨userId, now⟩ }

/-- PATCH /:chatId/messages/:messageId/read (routes/chat.js lines 339-382). -/
def markRead (db : DB) (userId chatId messageId now : Nat) : ReadOutcome :=
  match findChatAsParticipant db userId chatId with
  | none => ⟨Except.error ReadErr.chatNotFound, db⟩
  | some _ =>
    match db.messages.find? (markReadFilter userId chatId messageId) with
    | none => ⟨Except.error ReadErr.messageNotFound, db⟩
    | some _ =>
      let updated := updateFirst (markReadFilter userId chatId messageId)
        (readUpdate userId now) db.messages
      ⟨Except.ok (), { db with messages := updated }⟩

/-- The updateMany filter of PATCH read-all: chat, sender ≠ reader,
status ≠ read.  Also the filter of the unread count of GET / (inbox). -/
def unreadFilter (userId chatId : Nat) (m : Message) : Bool :=
  decide (m.chat = chatId ∧ m.sender ≠ userId ∧
          m.deliveryStatus ≠ MsgDeliveryStatus.read)

/-- PATCH /:chatId/read-all (routes/chat.js lines 385-423). -/
def markAllRead (db : DB) (userId chatId now : Nat) : ReadOutcome :=
  match findChatAsParticipant db userId chatId with
  | none => ⟨Except.error ReadErr.chatNotFound, db⟩
  | some _ =>
    ⟨Except.ok (),
     { db with messages := db.messages.map (fun m =>
         if unreadFilter userId chatId m then readUpdate userId now m else m) }⟩

/-- Message.countDocuments(chat, sender ≠ user, status ≠ read): the unread
count reported per chat by GET / (routes/chat.js lines 159-172). -/
def unreadCount (db : DB) (userId chatId : Nat) : Nat :=
  (db.messages.filter (unreadFilter userId chatId)).length

/-! ### GET /api/chats/:chatId/messages (paginated listing) -/

inductive ListErr
  /-- 404 "Chat not found" -/
  | chatNotFound
deriving DecidableEq

/-- Page selection of GET /:chatId/messages (routes/chat.js lines 236-249):
pageNumber = max(1, page), pageSize = min(100, max(1, limit)),
skip = (pageNumber-1)*pageSize; the chat's messages are sorted newest first
(modelled as reversal of the creation-ordered list), skip/limit applied, and
the page reversed so the page itself reads oldest first. -/
def listMessagesPage (msgs : List Message) (page limit : Nat) : List Message :=
  let pageNumber := max 1 page
  let pageSize := min 100 (max 1 limit)
  let skip := (pageNumber - 1) * pageSize
  (((msgs.reverse).drop skip).take pageSize).reverse

/-- totalPages = Math.ceil(totalCount / pageSize). -/
def pageCount (total pageSize : Nat) : Nat := (total + pageSize - 1) / pageSize

/-- The messages of one chat, in creation order (the store is append-only). -/
def chatMessages (db : DB) (chatId : Nat) : List Message :=
  db.messages.filter (fun m => decide (m.chat = chatId))

/-- GET /:chatId/messages (routes/chat.js lines 220-269). -/
def listMessages (db : DB) (userId chatId page limit : Nat) :
    Except ListErr (List Message) :=
  match findChatAsParticipant db userId chatId with
  | none => Except.error ListErr.chatNotFound
  | some _ => Except.ok (listMessagesPage (chatMessages db chatId) page limit)

/-! ### PATCH /api/chats/:chatId/status -/

/-- PATCH /:chatId/status (routes/chat.js lines 426-469).  The enum-validity
checks of the route are subsumed by the typed statuses; absent fields leave
the stored value unchanged (updateData only carries the provided keys). -/
def updateChatStatus (db : DB) (userId chatId : Nat)
    (chatStatus : Option ChatStatus) (recruitmentStatus : Option RecruitmentStatus) :
    ReadOutcome :=
  match findChatAsParticipant db userId chatId with
  | none => ⟨Except.error ReadErr.chatNotFound, db⟩
  | some _ =>
    ⟨Except.ok (),
     { db with chats := db.chats.map (fun c =>
         if c.id = chatId then
           { c with chatStatus := chatStatus.getD c.chatStatus,
                    recruitmentStatus := recruitmentStatus.getD c.recruitmentStatus }
         else c) }⟩

/-! ### POST /api/chats/initiate -/

inductive InitErr
  /-- 404 "Campaign not found or access denied" (the spec's Forbidden class:
  the requester is not the brand owning the campaign) -/
  | campaignNotFoundOrNotOwned
  /-- 400 "Creator has not applied to this campaign" (the spec's InvalidState
  class) -/
  | creatorNotApplied
  /-- 404 "Creator not found" (the spec's NotFound class) -/
  | creatorNotFound
  /-- 400 "Chat already exists", carrying the existing chat id (the spec's
  Conflict class) -/
  | chatAlreadyExists (chatId : Nat)
  /-- 500 "Server error" (a save rejected by schema validation) -/
  | serverError
deriving DecidableEq

structure InitOutcome where
  res : Except InitErr Nat
  db : DB
  events : List SocketEvent
deriving DecidableEq

/-- Content of the synthetic system message of POST /initiate. -/
def sysContentOf (brandName campaignName : String) : String :=
  brandName ++ " started a conversation about \"" ++ campaignName ++ "\""

/-- Campaign.findOne filter of POST /initiate: _id: campaignId, brand: brandId. -/
def initCampaignFilter (brandId campaignId : Nat) (c : CampaignDoc) : Bool :=
  decide (c.id = campaignId ∧ c.brand = brandId)

/-- The hasApplied test of POST /initiate over campaign.appliedCreators. -/
def appliedFilter (creatorId : Nat) (a : Application) : Bool :=
  decide (a.creator = creatorId)

/-- User.findOne filter of POST /initiate: _id, role creator, status approved. -/
def initCreatorFilter (creatorId : Nat) (u : UserDoc) : Bool :=
  decide (u.id = creatorId ∧ u.role = Role.creator ∧
          u.standing = UserStanding.approved)

/-- Chat.findOne filter of POST /initiate: campaign and both participants
(participants: $all: [brandId, creatorId]). -/
def initChatFilter (brandId campaignId creatorId : Nat) (c : Chat) : Bool :=
  decide (c.campaign = campaignId ∧ brandId ∈ c.participants ∧
          creatorId ∈ c.participants)

/-- The chat document inserted by POST /initiate (before its second save sets
lastMessage); its fresh ObjectId is db.nextId. -/
def initBaseChat (db : DB) (brandId campaignId creatorId : Nat) (now : Nat) : Chat :=
  { id := db.nextId, participants := [brandId, creatorId], campaign := campaignId,
    initiatedBy := brandId, lastMessage := none, lastActivity := now,
    chatStatus := ChatStatus.active,
    recruitmentStatus := RecruitmentStatus.discussing }

/-- The chat_started system message saved by POST /initiate. -/
def initSystemMessage (db : DB) (brandId : Nat) (sysContent : String)
    (now : Nat) : Message :=
  { id := db.nextId + 1, chat := db.nextId, sender := brandId,
    content := sysContent, messageType := MessageType.system,
    offerDetails := none, deliveryStatus := MsgDeliveryStatus.sent, readBy := [],
    systemMessageType := some SystemMessageType.chat_started, createdAt := now }

/-- The optional first text message saved by POST /initiate. -/
def initFirstMessage (db : DB) (brandId : Nat) (content : String)
    (now : Nat) : Message :=
  { id := db.nextId + 2, chat := db.nextId, sender := brandId, content := content,
    messageType := MessageType.text, offerDetails := none,
    deliveryStatus := MsgDeliveryStatus.sent, readBy := [],
    systemMessageType := none, createdAt := now }

/-- Success outcome of POST /initiate when no first message is stored: the
system message becomes lastMessage. -/
def initDoneNoFirst (db : DB) (brandId campaignId creatorId : Nat)
    (sysContent : String) (now : Nat) : InitOutcome :=
  ⟨Except.ok db.nextId,
   { db with
     chats := db.chats ++
       [{ initBaseChat db brandId campaignId creatorId now with
          lastMessage := some (db.nextId + 1) }]
     messages := db.messages ++ [initSystemMessage db brandId sysContent now]
     nextId := db.nextId + 2 },
   [⟨Channel.user creatorId, "new_chat", db.nextId⟩]⟩

/-- Success outcome of POST /initiate with a first message, which becomes
lastMessage. -/
def initDoneWithFirst (db : DB) (brandId campaignId creatorId : Nat)
    (sysContent firstContent : String) (now : Nat) : InitOutcome :=
  ⟨Except.ok db.nextId,
   { db with
     chats := db.chats ++
       [{ initBaseChat db brandId campaignId creatorId now with
          lastMessage := some (db.nextId + 2) }]
     messages := db.messages ++
       [initSystemMessage db brandId sysContent now,
        initFirstMessage db brandId firstContent now]
     nextId := db.nextId + 3 },
   [⟨Channel.user creatorId, "new_chat", db.nextId⟩]⟩

/-- POST /initiate (routes/chat.js lines 10-130).  Checks, in source order:
campaign owned by the requesting brand, creator present in
campaign.appliedCreators, creator approved, no existing chat for
(campaign, both participants); then saves the chat, a system message of
systemMessageType chat_started, optionally a first text message (when
initialMessage is non-empty after trimming, it becomes lastMessage, otherwise
the system message does), and emits new_chat to the creator's personal room.
The two saves of newChat (insert, then lastMessage/lastActivity update of the
same fresh document) are modelled by appending the finished document; when a
later message save fails schema validation (maxlength 2000), the documents
already saved remain, exactly as in the original (no transaction).  The
missing-parameter guard of the route is outside the model because ids are
always present here.  The requester's brandName (req.user.brandName) is passed
in, as the auth middleware supplies it. -/
def initiateChat (db : DB) (brandId : Nat) (brandName : String)
    (campaignId creatorId : Nat) (initialMessage : Option String)
    (now : Nat) : InitOutcome :=
  match db.campaigns.find? (initCampaignFilter brandId campaignId) with
  | none => ⟨Except.error InitErr.campaignNotFoundOrNotOwned, db, []⟩
  | some campaign =>
    if ¬ campaign.appliedCreators.any (appliedFilter creatorId) then
      ⟨Except.error InitErr.creatorNotApplied, db, []⟩
    else
      match db.users.find? (initCreatorFilter creatorId) with
      | none => ⟨Except.error InitErr.creatorNotFound, db, []⟩
      | some _ =>
        match db.chats.find? (initChatFilter brandId campaignId creatorId) with
        | some existingChat =>
          ⟨Except.error (InitErr.chatAlreadyExists existingChat.id), db, []⟩
        | none =>
          if 2000 < (strTrim (sysContentOf brandName campaign.name)).length then
            ⟨Except.error InitErr.serverError,
             { db with
               chats := db.chats ++ [initBaseChat db brandId campaignId creatorId now]
               nextId := db.nextId + 1 }, []⟩
          else
            match initialMessage with
            | some s =>
              if (strTrim s) = "" then
                initDoneNoFirst db brandId campaignId creatorId
                  (strTrim (sysContentOf brandName campaign.name)) now
              else if 2000 < (strTrim s).length then
                ⟨Except.error InitErr.serverError,
                 { db with
                   chats := db.chats ++ [initBaseChat db brandId campaignId creatorId now]
                   messages := db.messages ++
                     [initSystemMessage db brandId
                        (strTrim (sysContentOf brandName campaign.name)) now]
                   nextId := db.nextId + 2 }, []⟩
              else
                initDoneWithFirst db brandId campaignId creatorId
                  (strTrim (sysContentOf brandName campaign.name)) (strTrim s) now
            | none =>
              initDoneNoFirst db brandId campaignId creatorId
                (strTrim (sysContentOf brandName campaign.name)) now

/-! ### Specification-side model of the initiate precondition cascade -/

/-- The error taxonomy of spec section 7, restricted to the classes named for
initiateConversation. -/
inductive SpecInitOutcome
  | forbidden
  | invalidState
  | notFound
  | conflict (existingId : Nat)
  | success
deriving DecidableEq

/-- Follows the spec's words (section 4.3): preconditions checked in order,
first failure wins — requester must be the brand owning the campaign (else
Forbidden); creator must appear in the campaign's applied-set (else
InvalidState); creator identity must exist in approved standing (else
NotFound); no existing Conversation for the (campaign, brand and creator)
pair (else Conflict, returning the existing id). -/
def specInitiateOutcome (db : DB) (brandId campaignId creatorId : Nat) :
    SpecInitOutcome :=
  match db.campaigns.find? (initCampaignFilter brandId campaignId) with
  | none => SpecInitOutcome.forbidden
  | some campaign =>
    if ¬ campaign.appliedCreators.any (appliedFilter creatorId) then
      SpecInitOutcome.invalidState
    else if (db.users.find? (initCreatorFilter creatorId)).isNone then
      SpecInitOutcome.notFound
    else
      match db.chats.find? (initChatFilter brandId campaignId creatorId) with
      | some existingChat => SpecInitOutcome.conflict existingChat.id
      | none => SpecInitOutcome.success

/-- The error class the claim assigns to each step of the cascade, as a result
value: Forbidden, InvalidState, NotFound and Conflict are the corresponding
route errors, success is the ok result carrying the fresh chat id. -/
def initResOfSpecClass (o : SpecInitOutcome) (freshId : Nat) : Except InitErr Nat :=
  match o with
  | SpecInitOutcome.forbidden => Except.error InitErr.campaignNotFoundOrNotOwned
  | SpecInitOutcome.invalidState => Except.error InitErr.creatorNotApplied
  | SpecInitOutcome.notFound => Except.error InitErr.creatorNotFound
  | SpecInitOutcome.conflict cid => Except.error (InitErr.chatAlreadyExists cid)
  | SpecInitOutcome.success => Except.ok freshId

/-! ### The in-memory presence registry (socket/socketHandler.js) -/

/-- The value stored in the activeUsers Map: socketId, the connected user, the
connection time, and the optional status label added by update_status. -/
structure PresenceEntry where
  socketId : Nat
  userId : Nat
  connectedAt : Nat
  statusLabel : Option String
deriving DecidableEq

/-- The activeUsers Map, as its insertion-ordered key-value pairs (JavaScript
Map iteration order). -/
abbrev Registry : Type := List (Nat × PresenceEntry)

/-- Map.prototype.has. -/
def registryHas (m : Registry) (k : Nat) : Bool :=
  m.any (fun e => decide (e.fst = k))

/-- Map.prototype.set: replaces the value in place when the key is present
(keeping insertion order), otherwise appends.  This is the
activeUsers.set(userId, entry) performed on connection. -/
def register (m : Registry) (k : Nat) (v : PresenceEntry) : Registry :=
  if registryHas m k then
    m.map (fun e => if e.fst = k then (k, v) else e)
  else m ++ [(k, v)]

/-- Map.prototype.delete: the activeUsers.delete(userId) performed on
disconnect. -/
def unregister (m : Registry) (k : Nat) : Registry :=
  m.filter (fun e => decide (e.fst ≠ k))

/-- Map.prototype.get, as used by getUserSocket / isUserOnline. -/
def registryLookup (m : Registry) (k : Nat) : Option PresenceEntry :=
  (m.find? (fun e => decide (e.fst = k))).map Prod.snd

/-! ### Operation language for the unread-count invariant -/

/-- The operations of claim C8 that may run between markAllRead and the next
send: markRead, markAllRead, listMessages and the status update.  sendMessage
is deliberately absent. -/
inductive NonSendOp
  | doMarkRead (userId chatId messageId now : Nat)
  | doMarkAllRead (userId chatId now : Nat)
  | doListMessages (userId chatId page limit : Nat)
  | doUpdateChatStatus (userId chatId : Nat) (chatStatus : Option ChatStatus)
      (recruitmentStatus : Option RecruitmentStatus)

/-- State effect of one NonSendOp (listMessages is a pure query). -/
def applyNonSendOp (db : DB) : NonSendOp → DB
  | NonSendOp.doMarkRead u c m n => (markRead db u c m n).db
  | NonSendOp.doMarkAllRead u c n => (markAllRead db u c n).db
  | NonSendOp.doListMessages _ _ _ _ => db
  | NonSendOp.doUpdateChatStatus u c s r => (updateChatStatus db u c s r).db

def applyNonSendOps (db : DB) (ops : List NonSendOp) : DB :=
  ops.foldl applyNonSendOp db

/-! ### Helper lemmas about pagination -/

theorem reverse_drop_eq {α : Type} (l : List α) (a : Nat) :
    l.reverse.drop a = (l.take (l.length - a)).reverse := by
  have h := List.rdrop_eq_reverse_drop_reverse (l := l) (n := a)
  rw [List.rdrop] at h
  rw [h, List.reverse_reverse]

theorem reverse_take_eq {α : Type} (l : List α) (b : Nat) :
    l.reverse.take b = (l.drop (l.length - b)).reverse := by
  have h := List.rtake_eq_reverse_take_reverse (l := l) (n := b)
  rw [List.rtake] at h
  rw [h, List.reverse_reverse]

/-- A page cut out of the reversed list is a contiguous slice of the original
list, read in the original order. -/
theorem page_slice {α : Type} (l : List α) (a b : Nat) :
    ((l.reverse.drop a).take b).reverse
      = (l.take (l.length - a)).drop (l.length - a - b) := by
  rw [reverse_drop_eq, reverse_take_eq, List.reverse_reverse, List.length_take]
  congr 1
  omega

theorem pageCount_zero (s : Nat) (hs : 0 < s) : pageCount 0 s = 0 := by
  unfold pageCount
  exact Nat.div_eq_of_lt (by omega)

theorem pageCount_succ (n s : Nat) (hs : 0 < s) (hn : 0 < n) :
    pageCount n s = pageCount (n - s) s + 1 := by
  unfold pageCount
  rcases Nat.lt_or_ge n s with h | h
  · have h1 : n - s = 0 := by omega
    have h2 : (0 + s - 1) / s = 0 := Nat.div_eq_of_lt (by omega)
    have h3 : n + s - 1 = (n - 1) + s := by omega
    rw [h1, h2, h3, Nat.add_div_right _ hs, Nat.div_eq_of_lt (by omega)]
  · have h3 : n + s - 1 = ((n - s) + s - 1) + s := by omega
    rw [h3, Nat.add_div_right _ hs]

/-- Splitting a list into ceil(length/s) chunks of s elements and flattening
them restores the list. -/
theorem chunks_flatten {α : Type} (s : Nat) (hs : 0 < s) :
    ∀ (n : Nat) (l : List α), l.length = n →
      ((List.range (pageCount n s)).map (fun i => (l.drop (i * s)).take s)).flatten
        = l := by
  intro n
  induction n using Nat.strong_induction_on with
  | _ n ih =>
    intro l hl
    cases n with
    | zero =>
      have hl0 : l = [] := List.length_eq_zero.mp hl
      subst hl0
      rw [pageCount_zero s hs]
      simp
    | succ m =>
      rw [pageCount_succ (m + 1) s hs (Nat.succ_pos m), List.range_succ_eq_map,
        List.map_cons, List.map_map, List.flatten_cons]
      have hmap : (List.range (pageCount (m + 1 - s) s)).map
            ((fun i => (l.drop (i * s)).take s) ∘ Nat.succ)
          = (List.range (pageCount (m + 1 - s) s)).map
            (fun i => ((l.drop s).drop (i * s)).take s) := by
        apply List.map_congr_left
        intro i _
        have : l.drop (Nat.succ i * s) = (l.drop s).drop (i * s) := by
          rw [List.drop_drop]
          congr 1
          rw [Nat.succ_mul]
          omega
        simp only [Function.comp]
        rw [this]
      rw [hmap]
      have hlen : (l.drop s).length = m + 1 - s := by
        rw [List.length_drop, hl]
      rw [ih (m + 1 - s) (by omega) (l.drop s) hlen]
      simp

/-- Flattening in reverse order is the reverse of flattening the reversed
chunks. -/
theorem flatten_map_reverse {α β : Type} (f : α → List β) (l : List α) :
    (l.reverse.map f).flatten
      = ((l.map (fun x => (f x).reverse)).flatten).reverse := by
  rw [List.map_reverse, List.flatten_reverse, List.map_map]
  rfl

/-! ### Helper lemmas about the presence registry -/

theorem register_keys (m : Registry) (k : Nat) (v : PresenceEntry) :
    (register m k v).map Prod.fst
      = if registryHas m k then m.map Prod.fst else m.map Prod.fst ++ [k] := by
  unfold register
  by_cases h : registryHas m k = true
  · rw [if_pos h, if_pos h, List.map_map]
    apply List.map_congr_left
    intro e _
    by_cases hek : e.fst = k <;> simp [Function.comp, hek]
  · rw [if_neg h, if_neg h, List.map_append]
    rfl

theorem not_mem_keys_of_not_has (m : Registry) (k : Nat)
    (h : registryHas m k = false) : k ∉ m.map Prod.fst := by
  intro hk
  rcases List.mem_map.mp hk with ⟨e, he, hek⟩
  have : registryHas m k = true := by
    rw [registryHas, List.any_eq_true]
    exact ⟨e, he, by simp [hek]⟩
  rw [this] at h
  cases h

theorem mem_keys_of_has (m : Registry) (k : Nat)
    (h : registryHas m k = true) : k ∈ m.map Prod.fst := by
  rw [registryHas, List.any_eq_true] at h
  rcases h with ⟨e, he, hek⟩
  simp only [decide_eq_true_eq] at hek
  exact hek ▸ List.mem_map_of_mem Prod.fst he

theorem register_nodup (m : Registry) (k : Nat) (v : PresenceEntry)
    (h : (m.map Prod.fst).Nodup) : ((register m k v).map Prod.fst).Nodup := by
  rw [register_keys]
  by_cases hh : registryHas m k = true
  · rw [if_pos hh]
    exact h
  · rw [if_neg hh]
    have habs := not_mem_keys_of_not_has m k (by
      cases hb : registryHas m k
      · rfl
      · exact absurd hb hh)
    simp [List.nodup_append, h, habs]

theorem count_key_of_nodup (m : Registry) (k : Nat)
    (h : (m.map Prod.fst).Nodup) (hk : k ∈ m.map Prod.fst) :
    (m.filter (fun e => decide (e.fst = k))).length = 1 := by
  induction m with
  | nil => simp at hk
  | cons e es ih =>
    simp only [List.map_cons, List.nodup_cons] at h
    rcases h with ⟨hnot, hnd⟩
    by_cases hek : e.fst = k
    · have hnone : es.filter (fun x => decide (x.fst = k)) = [] := by
        rw [List.filter_eq_nil_iff]
        intro a ha
        simp only [decide_eq_true_eq]
        intro hak
        exact hnot (by rw [hek, ← hak]; exact List.mem_map_of_mem Prod.fst ha)
      rw [List.filter_cons, if_pos (by simp [hek])]
      rw [hnone]
      rfl
    · have hk2 : k ∈ es.map Prod.fst := by
        rcases List.mem_cons.mp hk with h1 | h1
        · exact absurd h1.symm hek
        · exact h1
      rw [List.filter_cons, if_neg (by simp [hek])]
      exact ih hnd hk2

theorem register_count_one (m : Registry) (k : Nat) (v : PresenceEntry)
    (h : (m.map Prod.fst).Nodup) :
    ((register m k v).filter (fun e => decide (e.fst = k))).length = 1 := by
  unfold register
  by_cases hh : registryHas m k = true
  · rw [if_pos hh, List.filter_map]
    have hcongr : (m.filter ((fun e : Nat × PresenceEntry => decide (e.fst = k)) ∘
          (fun e => if e.fst = k then (k, v) else e)))
        = m.filter (fun e => decide (e.fst = k)) := by
      apply List.filter_congr
      intro e _
      by_cases hek : e.fst = k <;> simp [Function.comp, hek]
    rw [hcongr, List.length_map]
    exact count_key_of_nodup m k h (mem_keys_of_has m k hh)
  · rw [if_neg hh, List.filter_append]
    have hnone : m.filter (fun e => decide (e.fst = k)) = [] := by
      rw [List.filter_eq_nil_iff]
      intro a ha
      simp only [decide_eq_true_eq]
      intro hak
      exact not_mem_keys_of_not_has m k (by
        cases hb : registryHas m k
        · rfl
        · exact absurd hb hh) (by rw [← hak]; exact List.mem_map_of_mem Prod.fst ha)
    rw [hnone]
    simp

theorem register_lookup (m : Registry) (k : Nat) (v : PresenceEntry) :
    registryLookup (register m k v) k = some v := by
  unfold register registryLookup
  by_cases hh : registryHas m k = true
  · rw [if_pos hh, List.find?_map]
    rw [registryHas, List.any_eq_true] at hh
    rcases hh with ⟨e0, he0, hek0⟩
    simp only [decide_eq_true_eq] at hek0
    have : ∃ x, m.find? ((fun e : Nat × PresenceEntry => decide (e.fst = k)) ∘
        (fun e => if e.fst = k then (k, v) else e)) = some x := by
      have hex : ∃ x ∈ m, ((fun e : Nat × PresenceEntry => decide (e.fst = k)) ∘
          (fun e => if e.fst = k then (k, v) else e)) x = true := by
        refine ⟨e0, he0, ?_⟩
        simp [Function.comp, hek0]
      rcases List.find?_isSome.mpr hex with h2
      exact Option.isSome_iff_exists.mp h2
    rcases this with ⟨x, hx⟩
    rw [hx]
    have hpx := List.find?_some hx
    simp only [Function.comp, decide_eq_true_eq] at hpx
    by_cases hxk : x.fst = k
    · simp [hxk]
    · rw [if_neg hxk] at hpx
      exact absurd hpx hxk
  · rw [if_neg hh, List.find?_append]
    have hnone : m.find? (fun e => decide (e.fst = k)) = none := by
      rw [List.find?_eq_none]
      intro e he
      simp only [decide_eq_true_eq]
      intro hek
      exact not_mem_keys_of_not_has m k (by
        cases hb : registryHas m k
        · rfl
        · exact absurd hb hh) (by rw [← hek]; exact List.mem_map_of_mem Prod.fst he)
    rw [hnone]
    simp [List.find?]

theorem unregister_absent (m : Registry) (k : Nat)
    (h : registryLookup m k = none) : unregister m k = m := by
  unfold unregister
  rw [List.filter_eq_self]
  intro e he
  simp only [decide_eq_true_eq]
  rw [registryLookup, Option.map_eq_none', List.find?_eq_none] at h
  have := h e he
  simp only [decide_eq_true_eq] at this
  exact this

theorem unregister_nodup (m : Registry) (k : Nat)
    (h : (m.map Prod.fst).Nodup) : ((unregister m k).map Prod.fst).Nodup := by
  exact h.sublist ((List.filter_sublist m).map Prod.fst)

/-! ### Helper lemmas about read receipts and the unread count -/

theorem mem_updateFirst {p : Message → Bool} {f : Message → Message}
    {l : List Message} {x : Message} (hx : x ∈ updateFirst p f l) :
    x ∈ l ∨ ∃ m, m ∈ l ∧ x = f m := by
  induction l with
  | nil => simp [updateFirst] at hx
  | cons m ms ih =>
    rw [updateFirst] at hx
    by_cases hm : p m
    · rw [if_pos hm] at hx
      rcases List.mem_cons.mp hx with h | h
      · exact Or.inr ⟨m, List.mem_cons_self m ms, h⟩
      · exact Or.inl (List.mem_cons_of_mem m h)
    · rw [if_neg hm] at hx
      rcases List.mem_cons.mp hx with h | h
      · exact Or.inl (by rw [h]; exact List.mem_cons_self m ms)
      · rcases ih h with h2 | ⟨m2, hm2, hx2⟩
        · exact Or.inl (List.mem_cons_of_mem m h2)
        · exact Or.inr ⟨m2, List.mem_cons_of_mem m hm2, hx2⟩

/-- A message rewritten by the read update is never counted as unread. -/
theorem unreadFilter_readUpdate (u chatId v n : Nat) (m : Message) :
    unreadFilter u chatId (readUpdate v n m) = false := by
  simp [unreadFilter, readUpdate]

theorem unreadCount_eq_zero {db : DB} {u chatId : Nat} :
    unreadCount db u chatId = 0
      ↔ ∀ m ∈ db.messages, unreadFilter u chatId m = false := by
  rw [unreadCount, List.length_eq_zero, List.filter_eq_nil_iff]
  constructor
  · intro h m hm
    cases hb : unreadFilter u chatId m
    · rfl
    · exact absurd hb (h m hm)
  · intro h m hm
    rw [h m hm]
    simp

/-- Every message in the store after markRead is either an original message or
the read update of an original message. -/
theorem markRead_messages_shape (db : DB) (u chatId messageId now : Nat) :
    ∀ x ∈ (markRead db u chatId messageId now).db.messages,
      x ∈ db.messages ∨ ∃ m, m ∈ db.messages ∧ x = readUpdate u now m := by
  intro x hx
  unfold markRead at hx
  rcases h1 : findChatAsParticipant db u chatId with _ | c
  · rw [h1] at hx
    exact Or.inl hx
  · rw [h1] at hx
    rcases h2 : db.messages.find? (markReadFilter u chatId messageId) with _ | m0
    · rw [h2] at hx
      exact Or.inl hx
    · rw [h2] at hx
      exact mem_updateFirst hx

/-- Every message in the store after markAllRead is either an original message
or the read update of an original message. -/
theorem markAllRead_messages_shape (db : DB) (u chatId now : Nat) :
    ∀ x ∈ (markAllRead db u chatId now).db.messages,
      x ∈ db.messages ∨ ∃ m, m ∈ db.messages ∧ x = readUpdate u now m := by
  intro x hx
  unfold markAllRead at hx
  rcases h1 : findChatAsParticipant db u chatId with _ | c
  · rw [h1] at hx
    exact Or.inl hx
  · rw [h1] at hx
    rcases List.mem_map.mp hx with ⟨m, hm, hgm⟩
    by_cases hcond : unreadFilter u chatId m = true
    · rw [if_pos hcond] at hgm
      exact Or.inr ⟨m, hm, hgm.symm⟩
    · rw [if_neg hcond] at hgm
      exact Or.inl (hgm ▸ hm)

/-- updateChatStatus never touches the message store. -/
theorem updateChatStatus_messages (db : DB) (u chatId : Nat)
    (s : Option ChatStatus) (r : Option RecruitmentStatus) :
    (updateChatStatus db u chatId s r).db.messages = db.messages := by
  unfold updateChatStatus
  rcases h1 : findChatAsParticipant db u chatId with _ | c <;> rfl

theorem applyNonSendOp_preserves_zero (db : DB) (u chatId : Nat) (op : NonSendOp)
    (h : unreadCount db u chatId = 0) :
    unreadCount (applyNonSendOp db op) u chatId = 0 := by
  have hall := unreadCount_eq_zero.mp h
  rw [unreadCount_eq_zero]
  cases op with
  | doMarkRead v c mId n =>
    intro x hx
    rcases markRead_messages_shape db v c mId n x hx with h1 | ⟨m, hm, hxm⟩
    · exact hall x h1
    · rw [hxm]
      exact unreadFilter_readUpdate u chatId v n m
  | doMarkAllRead v c n =>
    intro x hx
    rcases markAllRead_messages_shape db v c n x hx with h1 | ⟨m, hm, hxm⟩
    · exact hall x h1
    · rw [hxm]
      exact unreadFilter_readUpdate u chatId v n m
  | doListMessages v c p lim =>
    exact hall
  | doUpdateChatStatus v c s r =>
    intro x hx
    rw [applyNonSendOp, updateChatStatus_messages] at hx
    exact hall x hx

theorem applyNonSendOps_preserves_zero (u chatId : Nat) (ops : List NonSendOp) :
    ∀ db : DB, unreadCount db u chatId = 0 →
      unreadCount (applyNonSendOps db ops) u chatId = 0 := by
  induction ops with
  | nil => intro db h; exact h
  | cons op rest ih =>
    intro db h
    exact ih (applyNonSendOp db op) (applyNonSendOp_preserves_zero db u chatId op h)

/-- markAllRead by a participant leaves that participant with unread count 0. -/
theorem markAllRead_unread_zero (db : DB) (u chatId now : Nat) (c : Chat)
    (hc : findChatAsParticipant db u chatId = some c) :
    unreadCount (markAllRead db u chatId now).db u chatId = 0 := by
  rw [unreadCount_eq_zero]
  intro x hx
  unfold markAllRead at hx
  rw [hc] at hx
  rcases List.mem_map.mp hx with ⟨m, hm, hgm⟩
  by_cases hcond : unreadFilter u chatId m = true
  · rw [if_pos hcond] at hgm
    rw [← hgm]
    exact unreadFilter_readUpdate u chatId u now m
  · rw [if_neg hcond] at hgm
    rw [← hgm]
    cases hb : unreadFilter u chatId m
    · rfl
    · exact absurd hb hcond

/-! ### Helper lemmas about chat lookups and sendMessage -/

theorem findChatAsParticipant_spec {db : DB} {u chatId : Nat} {c : Chat}
    (h : findChatAsParticipant db u chatId = some c) :
    c ∈ db.chats ∧ c.id = chatId ∧ u ∈ c.participants := by
  refine ⟨List.mem_of_find?_eq_some h, ?_⟩
  have hp := List.find?_some h
  simpa using hp

/-- When the chat a participant finds is not active, the active-only lookup of
the send route finds nothing (chat ids being unique). -/
theorem findActiveChat_none_of_inactive {db : DB} {u chatId : Nat} {c : Chat}
    (hfound : findChatAsParticipant db u chatId = some c)
    (hstat : c.chatStatus ≠ ChatStatus.active)
    (huniq : ∀ c1 ∈ db.chats, ∀ c2 ∈ db.chats, c1.id = c2.id → c1 = c2) :
    findActiveChatAsParticipant db u chatId = none := by
  rw [findActiveChatAsParticipant, List.find?_eq_none]
  intro x hx
  simp only [decide_eq_true_eq]
  rintro ⟨h1, _, h3⟩
  obtain ⟨hcmem, hcid, _⟩ := findChatAsParticipant_spec hfound
  have hxc : x = c := huniq x hx c hcmem (by rw [h1, hcid])
  rw [hxc] at h3
  exact hstat h3

theorem sendMessage_of_not_found {db : DB} {u chatId : Nat} {content : String}
    {k : MessageType} {o : Option OfferDetails} {now : Nat}
    (hne : (strTrim content) ≠ "")
    (hnone : findActiveChatAsParticipant db u chatId = none) :
    sendMessage db u chatId content k o now
      = ⟨Except.error SendErr.chatNotFoundOrInactive, db, []⟩ := by
  unfold sendMessage
  rw [if_neg hne, hnone]

/-! ### Helper lemmas about initiateChat -/

/-- initiateChat never modifies the campaign or user collections. -/
theorem initiateChat_catalog (db : DB) (brandId : Nat) (brandName : String)
    (campaignId creatorId : Nat) (im : Option String) (now : Nat) :
    (initiateChat db brandId brandName campaignId creatorId im now).db.campaigns
        = db.campaigns
    ∧ (initiateChat db brandId brandName campaignId creatorId im now).db.users
        = db.users := by
  unfold initiateChat
  constructor <;>
    · repeat' split
      all_goals rfl

/-- What a successful initiateChat tells us: the fresh id is returned, all four
checks passed, and exactly the new chat document was appended. -/
theorem initiateChat_ok_extract (db : DB) (brandId : Nat) (brandName : String)
    (campaignId creatorId : Nat) (im : Option String) (now cid : Nat)
    (h : (initiateChat db brandId brandName campaignId creatorId im now).res
        = Except.ok cid) :
    cid = db.nextId
    ∧ (∃ campaign,
        db.campaigns.find? (initCampaignFilter brandId campaignId) = some campaign
        ∧ campaign.appliedCreators.any (appliedFilter creatorId) = true)
    ∧ (db.users.find? (initCreatorFilter creatorId)).isSome = true
    ∧ db.chats.find? (initChatFilter brandId campaignId creatorId) = none
    ∧ (∃ last,
        (initiateChat db brandId brandName campaignId creatorId im now).db.chats
            = db.chats ++ [last]
        ∧ last.id = db.nextId ∧ last.campaign = campaignId
        ∧ last.participants = [brandId, creatorId]) := by
  rcases hcamp : db.campaigns.find? (initCampaignFilter brandId campaignId) with _ | campaign
  · simp [initiateChat, hcamp] at h
  · by_cases happ : campaign.appliedCreators.any (appliedFilter creatorId) = true
    · rcases husr : db.users.find? (initCreatorFilter creatorId) with _ | usr
      · simp [initiateChat, hcamp, happ, husr] at h
      · rcases hchat : db.chats.find? (initChatFilter brandId campaignId creatorId) with _ | ex
        · by_cases hsys : 2000 < (strTrim (sysContentOf brandName campaign.name)).length
          · simp [initiateChat, hcamp, happ, husr, hchat, hsys] at h
          · cases im with
            | none =>
              refine ⟨?_, ⟨campaign, rfl, happ⟩, by simp [husr], rfl, ?_⟩
              · simp [initiateChat, hcamp, happ, husr, hchat, hsys, initDoneNoFirst] at h
                omega
              · refine ⟨{ initBaseChat db brandId campaignId creatorId now with
                    lastMessage := some (db.nextId + 1) }, ?_, rfl, rfl, rfl⟩
                simp [initiateChat, hcamp, happ, husr, hchat, hsys, initDoneNoFirst]
            | some s =>
              by_cases hse : (strTrim s) = ""
              · refine ⟨?_, ⟨campaign, rfl, happ⟩, by simp [husr], rfl, ?_⟩
                · simp [initiateChat, hcamp, happ, husr, hchat, hsys, hse,
                    initDoneNoFirst] at h
                  omega
                · refine ⟨{ initBaseChat db brandId campaignId creatorId now with
                      lastMessage := some (db.nextId + 1) }, ?_, rfl, rfl, rfl⟩
                  simp [initiateChat, hcamp, happ, husr, hchat, hsys, hse, initDoneNoFirst]
              · by_cases hsl : 2000 < (strTrim s).length
                · simp [initiateChat, hcamp, happ, husr, hchat, hsys, hse, hsl] at h
                · refine ⟨?_, ⟨campaign, rfl, happ⟩, by simp [husr], rfl, ?_⟩
                  · simp [initiateChat, hcamp, happ, husr, hchat, hsys, hse, hsl,
                      initDoneWithFirst] at h
                    omega
                  · refine ⟨{ initBaseChat db brandId campaignId creatorId now with
                        lastMessage := some (db.nextId + 2) }, ?_, rfl, rfl, rfl⟩
                    simp [initiateChat, hcamp, happ, husr, hchat, hsys, hse, hsl,
                      initDoneWithFirst]
        · simp [initiateChat, hcamp, happ, husr, hchat] at h
    · simp [initiateChat, hcamp, happ] at h

/-! ### Page shape of GET messages -/

/-- Each page of GET /:chatId/messages is a contiguous slice of the chat's
creation-ordered message list: page i+1 (with effective page size limit) is
the messages from position length - (i+1)*limit to position length - i*limit,
hence chronologically ascending within the page; page 1 is the most recent
limit messages. -/
theorem listMessagesPage_slice (msgs : List Message) (i limit : Nat)
    (h1 : 1 ≤ limit) (h2 : limit ≤ 100) :
    listMessagesPage msgs (i + 1) limit
      = (msgs.take (msgs.length - i * limit)).drop
          (msgs.length - i * limit - limit) := by
  have hmax : max 1 (i + 1) - 1 = i := by omega
  have hsz : min 100 (max 1 limit) = limit := by omega
  show (((msgs.reverse).drop ((max 1 (i + 1) - 1) * min 100 (max 1 limit))).take
      (min 100 (max 1 limit))).reverse = _
  rw [hmax, hsz, page_slice]

/-- Concatenating the pages of GET /:chatId/messages from the last page down
to page 1 reconstructs the chat's messages in creation order. -/
theorem listMessagesPage_reverse_concat (msgs : List Message) (limit : Nat)
    (h1 : 1 ≤ limit) (h2 : limit ≤ 100) :
    ((List.range (pageCount msgs.length limit)).reverse.map
        (fun i => listMessagesPage msgs (i + 1) limit)).flatten = msgs := by
  rw [flatten_map_reverse]
  have hpages : (List.range (pageCount msgs.length limit)).map
        (fun i => (listMessagesPage msgs (i + 1) limit).reverse)
      = (List.range (pageCount msgs.length limit)).map
        (fun i => ((msgs.reverse).drop (i * limit)).take limit) := by
    apply List.map_congr_left
    intro i _
    have hmax : max 1 (i + 1) - 1 = i := by omega
    have hsz : min 100 (max 1 limit) = limit := by omega
    show ((((msgs.reverse).drop ((max 1 (i + 1) - 1) * min 100 (max 1 limit))).take
        (min 100 (max 1 limit))).reverse).reverse = _
    rw [List.reverse_reverse, hmax, hsz]
  rw [hpages]
  have hchunks := chunks_flatten limit (by omega) msgs.reverse.length msgs.reverse rfl
  rw [List.length_reverse] at hchunks
  rw [hchunks, List.reverse_reverse]

/-! ### Concrete sample data for witnesses and counterexamples -/

/-- A plain text message of chat 10 sent by user 1. -/
def sampleMsg (id createdAt : Nat) : Message :=
  { id := id, chat := 10, sender := 1, content := "hello",
    messageType := MessageType.text, offerDetails := none,
    deliveryStatus := MsgDeliveryStatus.sent, readBy := [],
    systemMessageType := none, createdAt := createdAt }

/-- Chat 10 between brand 1 and creator 2 about campaign 100. -/
def sampleChat : Chat :=
  { id := 10, participants := [1, 2], campaign := 100, initiatedBy := 1,
    lastMessage := some 20, lastActivity := 0,
    chatStatus := ChatStatus.active,
    recruitmentStatus := RecruitmentStatus.discussing }

/-- Store with the active chat 10 and one unread message 20 from user 1. -/
def sampleDB : DB := ⟨[sampleChat], [sampleMsg 20 0], [], [], 50⟩

/-- Same store with chat 10 blocked. -/
def blockedDB : DB :=
  ⟨[{ sampleChat with chatStatus := ChatStatus.blocked }], [sampleMsg 20 0],
   [], [], 50⟩

/-- Campaign 100 owned by brand 1, with creator 2 applied. -/
def sampleCampaign : CampaignDoc := ⟨100, 1, "Summer Promo", [⟨2, 0⟩]⟩

/-- Approved creator 2. -/
def sampleCreator : UserDoc := ⟨2, Role.creator, UserStanding.approved, ""⟩

/-- Store ready for initiating the first conversation of campaign 100. -/
def initDB : DB := ⟨[], [], [sampleCampaign], [sampleCreator], 50⟩

/-! ### Claim theorems -/

/-- Claim C1 (code_bug evidence): marking the same message read twice by the
same reader at two successive timestamps does not leave exactly one readBy
entry.  The second call succeeds, the first (reader, readAt) entry is kept
unchanged, but a second entry for the same reader is appended, because the
$addToSet element embeds the fresh timestamp, so an element with a different
readAt is a different set member.  Here reader 2 marks message 20 of chat 10
read at t=3 and again at t=4 and ends with readBy = [(2,3), (2,4)]. -/
theorem markRead_twice_duplicates_receipt :
    ((markRead (markRead sampleDB 2 10 20 3).db 2 10 20 4).res = Except.ok ())
    ∧ ((markRead (markRead sampleDB 2 10 20 3).db 2 10 20 4).db.messages.map
        Message.readBy = [[⟨2, 3⟩, ⟨2, 4⟩]]) := by decide

/-- Claim C2: after a successful initiateConversation for the triple
(campaign, brand, creator), calling it again with the same triple (any first
message, any time) returns the prior conversation id inside the Conflict
result, leaves the store untouched, and the store holds exactly one chat
matching the triple. -/
theorem initiateChat_idempotent_on_triple (db : DB) (brandId : Nat)
    (brandName brandName2 : String) (campaignId creatorId : Nat)
    (im im2 : Option String) (now now2 cid : Nat)
    (h : (initiateChat db brandId brandName campaignId creatorId im now).res
        = Except.ok cid) :
    ((initiateChat (initiateChat db brandId brandName campaignId creatorId im now).db
        brandId brandName2 campaignId creatorId im2 now2).res
      = Except.error (InitErr.chatAlreadyExists cid))
    ∧ ((initiateChat (initiateChat db brandId brandName campaignId creatorId im now).db
        brandId brandName2 campaignId creatorId im2 now2).db
      = (initiateChat db brandId brandName campaignId creatorId im now).db)
    ∧ (((initiateChat db brandId brandName campaignId creatorId im now).db.chats.filter
        (initChatFilter brandId campaignId creatorId)).length = 1) := by
  obtain ⟨hcid, ⟨campaign, hcamp, happ⟩, husrS, hnochat, last, hchats, hid, hcampf, hparts⟩ :=
    initiateChat_ok_extract db brandId brandName campaignId creatorId im now cid h
  obtain ⟨hcat1, hcat2⟩ :=
    initiateChat_catalog db brandId brandName campaignId creatorId im now
  obtain ⟨usr, husr⟩ := Option.isSome_iff_exists.mp husrS
  have hlastf : initChatFilter brandId campaignId creatorId last = true := by
    simp [initChatFilter, hcampf, hparts]
  have hfind1 : ((initiateChat db brandId brandName campaignId creatorId im now).db.chats.find?
      (initChatFilter brandId campaignId creatorId)) = some last := by
    rw [hchats, List.find?_append, hnochat]
    simp [List.find?, hlastf]
  generalize hg : (initiateChat db brandId brandName campaignId creatorId im now).db = db1
    at hchats hcat1 hcat2 hfind1 ⊢
  refine ⟨?_, ?_, ?_⟩
  · simp [initiateChat, hcat1, hcat2, hcamp, happ, husr, hfind1, hid, hcid]
  · simp [initiateChat, hcat1, hcat2, hcamp, happ, husr, hfind1]
  · rw [hchats, List.filter_append]
    have hfe : db.chats.filter (initChatFilter brandId campaignId creatorId) = [] := by
      rw [List.filter_eq_nil_iff]
      intro a ha
      have := List.find?_eq_none.mp hnochat a ha
      simpa using this
    rw [hfe]
    simp [hlastf]

theorem initiateChat_idempotent_on_triple_witness :
    ((initiateChat (initiateChat initDB 1 "B" 100 2 none 5).db
        1 "B" 100 2 none 6).res = Except.error (InitErr.chatAlreadyExists 50))
    ∧ ((initiateChat (initiateChat initDB 1 "B" 100 2 none 5).db
        1 "B" 100 2 none 6).db = (initiateChat initDB 1 "B" 100 2 none 5).db)
    ∧ (((initiateChat initDB 1 "B" 100 2 none 5).db.chats.filter
        (initChatFilter 1 100 2)).length = 1) :=
  initiateChat_idempotent_on_triple initDB 1 "B" "B" 100 2 none none 5 6 50
    (by decide)

/-- Claim C3 counterexample: a successful sendMessage publishes new_message
only to the personal channels of the other participants — here exactly
user_2 — and no event at all reaches the conversation channel chat_10,
contradicting the claim that the event is also published there. -/
theorem sendMessage_no_conversation_channel_event :
    ((sendMessage sampleDB 1 10 "hi" MessageType.text none 5).res.isOk = true)
    ∧ ((sendMessage sampleDB 1 10 "hi" MessageType.text none 5).events.map
        SocketEvent.channel = [Channel.user 2])
    ∧ (Channel.chat 10 ∉ (sendMessage sampleDB 1 10 "hi" MessageType.text
        none 5).events.map SocketEvent.channel) := by decide

/-- Claim C3 (amended): for every successful sendMessage, a new_message event
carrying the new message id is published to the personal channel of every
participant other than the sender, and to no other channel — in particular
not to the conversation channel chat_<conversationId>. -/
theorem sendMessage_events_personal_only (db : DB) (u chatId : Nat)
    (content : String) (k : MessageType) (o : Option OfferDetails) (now : Nat)
    (c : Chat) (hfound : findActiveChatAsParticipant db u chatId = some c)
    (hne : (strTrim content) ≠ "") (hlen : (strTrim content).length ≤ 2000) :
    ((sendMessage db u chatId content k o now).res
        = Except.ok (newSentMessage db u chatId content k o now))
    ∧ ((sendMessage db u chatId content k o now).events
        = (c.participants.filter (fun p => decide (p ≠ u))).map
            (fun p => ⟨Channel.user p, "new_message", db.nextId⟩)) := by
  have hgt : ¬ 2000 < (strTrim content).length := by omega
  constructor <;> simp [sendMessage, hne, hfound, hgt]

theorem sendMessage_events_personal_only_witness :
    (((sendMessage sampleDB 1 10 "hi" MessageType.text none 5).res
        = Except.ok (newSentMessage sampleDB 1 10 "hi" MessageType.text none 5))
    ∧ ((sendMessage sampleDB 1 10 "hi" MessageType.text none 5).events
        = (sampleChat.participants.filter (fun p => decide (p ≠ 1))).map
            (fun p => ⟨Channel.user p, "new_message", sampleDB.nextId⟩))) :=
  sendMessage_events_personal_only sampleDB 1 10 "hi" MessageType.text none 5
    sampleChat (by decide) (by decide) (by decide)

/-- The three messages of the pagination scenario, in creation order. -/
def msgs3 : List Message := [sampleMsg 21 1, sampleMsg 22 2, sampleMsg 23 3]

/-- Claim C4 counterexample: with three messages and page size 2,
concatenating the pages in page order (page 1 then page 2) yields the second
and third messages before the first — not the creation order. -/
theorem listMessages_page_order_concat_fails :
    (listMessagesPage msgs3 1 2 ++ listMessagesPage msgs3 2 2
        = [sampleMsg 22 2, sampleMsg 23 3, sampleMsg 21 1])
    ∧ (listMessagesPage msgs3 1 2 ++ listMessagesPage msgs3 2 2 ≠ msgs3) := by
  decide

/-- Claim C4 (amended): with the effective page size limit (clamped to 1..100
by the route), the pages of listMessages concatenated in reverse page order
(last page first) reconstruct exactly the N stored messages in creation order
with no duplicates or gaps, and each page i+1 is the contiguous slice of the
creation-ordered list from position N-(i+1)*limit to N-i*limit — so page 1
contains the most recent limit messages and every page is chronologically
ascending. -/
theorem listMessages_pages_reconstruct (msgs : List Message) (i limit : Nat)
    (h1 : 1 ≤ limit) (h2 : limit ≤ 100) :
    (((List.range (pageCount msgs.length limit)).reverse.map
        (fun j => listMessagesPage msgs (j + 1) limit)).flatten = msgs)
    ∧ (listMessagesPage msgs (i + 1) limit
        = (msgs.take (msgs.length - i * limit)).drop
            (msgs.length - i * limit - limit)) :=
  ⟨listMessagesPage_reverse_concat msgs limit h1 h2,
   listMessagesPage_slice msgs i limit h1 h2⟩

theorem listMessages_pages_reconstruct_witness :
    ((((List.range (pageCount msgs3.length 2)).reverse.map
        (fun j => listMessagesPage msgs3 (j + 1) 2)).flatten = msgs3)
    ∧ (listMessagesPage msgs3 (0 + 1) 2
        = (msgs3.take (msgs3.length - 0 * 2)).drop
            (msgs3.length - 0 * 2 - 2))) :=
  listMessages_pages_reconstruct msgs3 0 2 (by decide) (by decide)

/-- Claim C5: once a conversation's status is blocked or archived, sendMessage
by a participant fails at the active-conversation check (the branch the spec
classifies as InvalidState, surfaced as 404 "Chat not found or inactive"),
while listMessages and markRead by a participant still succeed. -/
theorem blocked_chat_send_fails_reads_succeed (db : DB)
    (u chatId messageId : Nat) (c : Chat) (content : String) (k : MessageType)
    (o : Option OfferDetails) (now now2 page limit : Nat)
    (hfound : findChatAsParticipant db u chatId = some c)
    (hstat : c.chatStatus = ChatStatus.blocked ∨ c.chatStatus = ChatStatus.archived)
    (huniq : ∀ c1 ∈ db.chats, ∀ c2 ∈ db.chats, c1.id = c2.id → c1 = c2)
    (hne : (strTrim content) ≠ "")
    (hmsg : (db.messages.find? (markReadFilter u chatId messageId)).isSome = true) :
    ((sendMessage db u chatId content k o now).res
        = Except.error SendErr.chatNotFoundOrInactive)
    ∧ (listMessages db u chatId page limit
        = Except.ok (listMessagesPage (chatMessages db chatId) page limit))
    ∧ ((markRead db u chatId messageId now2).res = Except.ok ()) := by
  have hstat2 : c.chatStatus ≠ ChatStatus.active := by
    rcases hstat with h | h <;> rw [h] <;> intro hcon <;> cases hcon
  have hnone := findActiveChat_none_of_inactive hfound hstat2 huniq
  obtain ⟨m0, hm0⟩ := Option.isSome_iff_exists.mp hmsg
  refine ⟨?_, ?_, ?_⟩
  · rw [sendMessage_of_not_found hne hnone]
  · simp [listMessages, hfound]
  · simp [markRead, hfound, hm0]

theorem blocked_chat_send_fails_reads_succeed_witness :
    (((sendMessage blockedDB 2 10 "yo" MessageType.text none 7).res
        = Except.error SendErr.chatNotFoundOrInactive)
    ∧ (listMessages blockedDB 2 10 1 50
        = Except.ok (listMessagesPage (chatMessages blockedDB 10) 1 50))
    ∧ ((markRead blockedDB 2 10 20 8).res = Except.ok ())) :=
  blocked_chat_send_fails_reads_succeed blockedDB 2 10 20
    { sampleChat with chatStatus := ChatStatus.blocked } "yo" MessageType.text
    none 7 8 1 50 (by decide) (by decide) (by decide) (by decide) (by decide)

/-- Claim C6 counterexample: a kind=offer sendMessage without an offer payload
succeeds — the message is stored with no offerDetails — contradicting the
claim that such a call does not succeed. -/
theorem offer_without_payload_succeeds :
    ((sendMessage sampleDB 1 10 "Interested!" MessageType.offer none 5).res.isOk
        = true)
    ∧ ((sendMessage sampleDB 1 10 "Interested!" MessageType.offer
        none 5).db.messages.map Message.offerDetails = [none, none]) := by decide

/-- Claim C6 (amended): with the chat found and active, sendMessage fails with
the route's ValidationError exactly when the content is empty after trimming;
trimmed content longer than 2000 characters is rejected by schema validation
at save time and surfaces as the generic server error instead; every other
call succeeds — the offer payload is never required. -/
theorem sendMessage_validation_characterization (db : DB) (u chatId : Nat)
    (content : String) (k : MessageType) (o : Option OfferDetails) (now : Nat)
    (c : Chat) (hfound : findActiveChatAsParticipant db u chatId = some c) :
    ((sendMessage db u chatId content k o now).res
        = Except.error SendErr.validationError ↔ (strTrim content) = "")
    ∧ ((sendMessage db u chatId content k o now).res
        = Except.error SendErr.serverError
      ↔ ((strTrim content) ≠ "" ∧ 2000 < (strTrim content).length))
    ∧ ((sendMessage db u chatId content k o now).res.isOk = true
      ↔ ((strTrim content) ≠ "" ∧ (strTrim content).length ≤ 2000)) := by
  by_cases hne : (strTrim content) = ""
  · simp [sendMessage, hne, Except.isOk, Except.toBool]
  · by_cases hlen : 2000 < (strTrim content).length
    · have hgt : ¬ (strTrim content).length ≤ 2000 := by omega
      simp [sendMessage, hne, hfound, hlen, hgt, Except.isOk, Except.toBool]
    · have hle : (strTrim content).length ≤ 2000 := by omega
      simp [sendMessage, hne, hfound, hlen, hle, Except.isOk, Except.toBool]

theorem sendMessage_validation_characterization_witness :
    (((sendMessage sampleDB 2 10 "" MessageType.text none 5).res
        = Except.error SendErr.validationError ↔ (strTrim "") = "")
    ∧ ((sendMessage sampleDB 2 10 "" MessageType.text none 5).res
        = Except.error SendErr.serverError
      ↔ ((strTrim "") ≠ "" ∧ 2000 < (strTrim "").length))
    ∧ ((sendMessage sampleDB 2 10 "" MessageType.text none 5).res.isOk = true
      ↔ ((strTrim "") ≠ "" ∧ (strTrim "").length ≤ 2000))) :=
  sendMessage_validation_characterization sampleDB 2 10 "" MessageType.text
    none 5 sampleChat (by decide)

/-- Claim C7: initiateConversation checks its preconditions in the fixed
source order with the first failure winning, and each branch returns the
error class the spec names for it: campaign not owned by the requester →
Forbidden, creator not applied → InvalidState, creator missing or not
approved → NotFound, existing conversation for the triple → Conflict carrying
the existing id, otherwise success with the fresh id.  The two hypotheses
keep the stored contents within the 2000-character schema bound, excluding
the save-time server-error paths that lie outside the claim. -/
theorem initiateChat_first_failure_wins (db : DB) (brandId : Nat)
    (brandName : String) (campaignId creatorId : Nat) (im : Option String)
    (now : Nat)
    (hsys : ∀ cp ∈ db.campaigns, (strTrim (sysContentOf brandName cp.name)).length ≤ 2000)
    (hfirst : im.all (fun s => decide ((strTrim s).length ≤ 2000)) = true) :
    (initiateChat db brandId brandName campaignId creatorId im now).res
      = initResOfSpecClass (specInitiateOutcome db brandId campaignId creatorId)
          db.nextId := by
  rcases hcamp : db.campaigns.find? (initCampaignFilter brandId campaignId) with _ | campaign
  · simp [initiateChat, specInitiateOutcome, hcamp, initResOfSpecClass]
  · have hsysc : ¬ 2000 < (strTrim (sysContentOf brandName campaign.name)).length := by
      have := hsys campaign (List.mem_of_find?_eq_some hcamp)
      omega
    by_cases happ : campaign.appliedCreators.any (appliedFilter creatorId) = true
    · rcases husr : db.users.find? (initCreatorFilter creatorId) with _ | usr
      · simp [initiateChat, specInitiateOutcome, hcamp, happ, husr,
          initResOfSpecClass]
      · rcases hchat : db.chats.find? (initChatFilter brandId campaignId creatorId) with _ | ex
        · cases im with
          | none =>
            simp [initiateChat, specInitiateOutcome, hcamp, happ, husr, hchat,
              hsysc, initResOfSpecClass, initDoneNoFirst]
          | some s =>
            have hslen : (strTrim s).length ≤ 2000 := by simpa using hfirst
            by_cases hse : (strTrim s) = ""
            · simp [initiateChat, specInitiateOutcome, hcamp, happ, husr, hchat,
                hsysc, hse, initResOfSpecClass, initDoneNoFirst]
            · have hsl : ¬ 2000 < (strTrim s).length := by omega
              simp [initiateChat, specInitiateOutcome, hcamp, happ, husr, hchat,
                hsysc, hse, hsl, initResOfSpecClass, initDoneWithFirst]
        · simp [initiateChat, specInitiateOutcome, hcamp, happ, husr, hchat,
            initResOfSpecClass]
    · simp [initiateChat, specInitiateOutcome, hcamp, happ, initResOfSpecClass]

theorem initiateChat_first_failure_wins_witness :
    (initiateChat initDB 1 "B" 100 2 (some "hello") 5).res
      = initResOfSpecClass (specInitiateOutcome initDB 1 100 2) initDB.nextId :=
  initiateChat_first_failure_wins initDB 1 "B" 100 2 (some "hello") 5
    (by decide) (by decide)

/-- Claim C8: immediately after markAllRead by a participant, that
participant's unread count for the conversation is 0, and it stays 0 under
any further sequence of markRead, markAllRead, listMessages and status-change
operations (by any user, on any chat) — only sendMessage is excluded. -/
theorem markAllRead_zero_unread_stable (db : DB) (u chatId now : Nat)
    (ops : List NonSendOp) (c : Chat)
    (hc : findChatAsParticipant db u chatId = some c) :
    (unreadCount (markAllRead db u chatId now).db u chatId = 0)
    ∧ (unreadCount (applyNonSendOps (markAllRead db u chatId now).db ops)
        u chatId = 0) :=
  have h0 := markAllRead_unread_zero db u chatId now c hc
  ⟨h0, applyNonSendOps_preserves_zero u chatId ops _ h0⟩

theorem markAllRead_zero_unread_stable_witness :
    ((unreadCount (markAllRead sampleDB 2 10 7).db 2 10 = 0)
    ∧ (unreadCount (applyNonSendOps (markAllRead sampleDB 2 10 7).db
        [NonSendOp.doMarkRead 1 10 20 9, NonSendOp.doMarkAllRead 1 10 9,
         NonSendOp.doListMessages 2 10 1 50,
         NonSendOp.doUpdateChatStatus 2 10 (some ChatStatus.blocked) none])
        2 10 = 0)) :=
  markAllRead_zero_unread_stable sampleDB 2 10 7
    [NonSendOp.doMarkRead 1 10 20 9, NonSendOp.doMarkAllRead 1 10 9,
     NonSendOp.doListMessages 2 10 1 50,
     NonSendOp.doUpdateChatStatus 2 10 (some ChatStatus.blocked) none]
    sampleChat (by decide)

/-- Claim C9: the presence registry keeps at most one entry per identity:
register preserves key uniqueness and leaves exactly one entry for the
registered identity, whose stored value is the new one (overwrite, no error);
unregister of an absent identity is a no-op, and unregister preserves key
uniqueness. -/
theorem registry_one_entry_per_identity (m : Registry) (k k2 : Nat)
    (v : PresenceEntry) (hnodup : (m.map Prod.fst).Nodup)
    (habs : registryLookup m k2 = none) :
    (((register m k v).map Prod.fst).Nodup)
    ∧ (((register m k v).filter (fun e => decide (e.fst = k))).length = 1)
    ∧ (registryLookup (register m k v) k = some v)
    ∧ (unregister m k2 = m)
    ∧ (((unregister m k).map Prod.fst).Nodup) :=
  ⟨register_nodup m k v hnodup, register_count_one m k v hnodup,
   register_lookup m k v, unregister_absent m k2 habs,
   unregister_nodup m k hnodup⟩

theorem registry_one_entry_per_identity_witness :
    ((((register [(1, ⟨30, 1, 0, none⟩), (3, ⟨31, 3, 0, none⟩)] 1
        ⟨32, 1, 4, none⟩).map Prod.fst).Nodup)
    ∧ (((register [(1, ⟨30, 1, 0, none⟩), (3, ⟨31, 3, 0, none⟩)] 1
        ⟨32, 1, 4, none⟩).filter (fun e => decide (e.fst = 1))).length = 1)
    ∧ (registryLookup (register [(1, ⟨30, 1, 0, none⟩), (3, ⟨31, 3, 0, none⟩)] 1
        ⟨32, 1, 4, none⟩) 1 = some ⟨32, 1, 4, none⟩)
    ∧ (unregister [(1, ⟨30, 1, 0, none⟩), (3, ⟨31, 3, 0, none⟩)] 7
        = [(1, ⟨30, 1, 0, none⟩), (3, ⟨31, 3, 0, none⟩)])
    ∧ (((unregister [(1, ⟨30, 1, 0, none⟩), (3, ⟨31, 3, 0, none⟩)] 1).map
        Prod.fst).Nodup)) :=
  registry_one_entry_per_identity [(1, ⟨30, 1, 0, none⟩), (3, ⟨31, 3, 0, none⟩)]
    1 7 ⟨32, 1, 4, none⟩ (by decide) (by decide)

/-- Claim C10: markRead and markAllRead modify only Message documents: the
chat collection — and with it every Conversation field (lastMessage,
lastActivity, status, recruitmentStatus) — is identical before and after any
markRead or markAllRead call, whether it succeeds or fails. -/
theorem markRead_markAllRead_preserve_chats (db : DB)
    (u1 c1 m1 n1 u2 c2 n2 : Nat) :
    ((markRead db u1 c1 m1 n1).db.chats = db.chats)
    ∧ ((markAllRead db u2 c2 n2).db.chats = db.chats) := by
  constructor
  · unfold markRead
    rcases findChatAsParticipant db u1 c1 with _ | c
    · rfl
    · rcases db.messages.find? (markReadFilter u1 c1 m1) with _ | m
      · rfl
      · rfl
  · unfold markAllRead
    rcases findChatAsParticipant db u2 c2 with _ | c
    · rfl
    · rfl

end Lokreach
